import Mathlib

/-!
Shallow embedding of the core of CycleCountApp-Warehouse and proofs about it.

The embedding covers:
* the Assignment Store (`src/utils/assignments.py`): an in-memory table keyed
  by assignment id, mirrored durably on every mutation;
* the Submission Log (`src/utils/storage.py`): a CSV file with a fixed
  10-field schema, online schema migration, append and read;
* the Expected-Quantity Resolver (`src/utils/mapping.py`): ordered fallback
  matching over an uploaded reference table;
* the relevant parts of the UI layer (`src/app.py`): the create-assignment
  guard, the dashboard discrepancy aggregation, and the sidebar mapping save.

Python dictionaries are modelled as association lists with insert-or-update
semantics (update keeps the key position, a new key is appended), matching
insertion-order iteration of Python dicts.  Timestamps are natural numbers
counting microseconds since the epoch; `datetime.utcnow()` reads are passed
explicitly, one parameter per call in source order, so that clock behaviour
is part of the statement rather than hidden.
-/

namespace CycleCount

/-! ### Assignment store (`src/utils/assignments.py`) -/

/-- Time in microseconds since the Unix epoch. -/
abbrev Micros := Nat

/-- `LOCK_MINUTES = 20` from `src/utils/assignments.py`. -/
def LOCK_MINUTES : Nat := 20

/-- `timedelta(minutes=LOCK_MINUTES)` expressed in microseconds. -/
def lockDelta : Micros := LOCK_MINUTES * 60 * 1000000

/-- `int(datetime.utcnow().timestamp())`: truncation of the time to whole
seconds (timestamps are non-negative, so truncation is floor division). -/
def epochSecond (t : Micros) : Nat := t / 1000000

/-- One assignment record, the value stored in `ASSIGNMENTS`. -/
structure Assignment where
  user : String
  pallet_id : String
  location : String
  expected_qty : Int
  created_at : Micros
  locked_until : Micros
  status : String
  sku : String
  lot : String
deriving Repr, DecidableEq

/-- The in-memory `ASSIGNMENTS` dict, keyed by assignment id. -/
abbrev AssignTable := List (String × Assignment)

/-- Python dict lookup `ASSIGNMENTS.get(aid)` (keys are unique, so first
match suffices). -/
def lookupA (tbl : AssignTable) (k : String) : Option Assignment :=
  match tbl with
  | [] => none
  | (k', v) :: rest => if k' = k then some v else lookupA rest k

/-- Python dict assignment `ASSIGNMENTS[k] = v`: an existing key keeps its
position and gets the new value, a new key is appended at the end. -/
def setA (tbl : AssignTable) (k : String) (v : Assignment) : AssignTable :=
  match tbl with
  | [] => [(k, v)]
  | (k', v') :: rest => if k' = k then (k, v) :: rest else (k', v') :: setA rest k v

/-- `create_assignment(user, pallet_id, location, expected_qty)`.

The three `datetime.utcnow()` calls of the source are passed explicitly in
source order: `tId` for the id's epoch stamp, `tCa` for `created_at`, `tLu`
for the base of `locked_until`.  Returns the new id and the updated table
(the source also persists the table via `save_all()`, modelled by returning
the table). -/
def create_assignment (user pallet_id location : String) (expected_qty : Int)
    (tId tCa tLu : Micros) (tbl : AssignTable) : String × AssignTable :=
  let assignment_id := user ++ "-" ++ pallet_id ++ "-" ++ toString (epochSecond tId)
  let a : Assignment :=
    { user := user
      pallet_id := pallet_id
      location := location
      expected_qty := expected_qty
      created_at := tCa
      locked_until := tLu + lockDelta
      status := "assigned"
      sku := ""
      lot := "" }
  (assignment_id, setA tbl assignment_id a)

/-- `get(aid)` from `src/utils/assignments.py`. -/
def get (tbl : AssignTable) (aid : String) : Option Assignment :=
  lookupA tbl aid

/-- `complete(aid)`: set the status to `"completed"` if the id is present,
otherwise do nothing (and never raise). -/
def complete (tbl : AssignTable) (aid : String) : AssignTable :=
  match lookupA tbl aid with
  | none => tbl
  | some a => setA tbl aid { a with status := "completed" }

/-- The create-button handler of `tab_assignments` in `src/app.py`: when
assignee, pallet id or location is empty (Python falsy) a warning is shown
and the store is not touched; otherwise `create_assignment` is called with
pallet id and location stripped.  Returns the created id (if any) and the
resulting table. -/
def tab_create_click (assignee pallet_id location : String) (expected : Int)
    (tId tCa tLu : Micros) (tbl : AssignTable) : Option String × AssignTable :=
  if assignee = "" ∨ pallet_id = "" ∨ location = "" then
    (none, tbl)
  else
    let r := create_assignment assignee pallet_id.trim location.trim expected tId tCa tLu tbl
    (some r.1, r.2)

/-! ### Submission log (`src/utils/storage.py`) -/

/-- `REQUIRED_FIELDS`, the current 10-field schema, in order. -/
def REQUIRED_FIELDS : List String :=
  ["timestamp", "user", "location", "sku", "lot",
   "expected_qty", "counted_qty", "issue_type", "actual_pallet", "note"]

/-- A CSV file as a list of records (each a list of cell strings); the first
record, when present, is the header. -/
abbrev CsvFile := List (List String)

/-- A row presented as a Python dict from field names to values. -/
abbrev RowDict := List (String × String)

/-- The value a `csv.DictReader` row dict gives for key `k`: the row dict is
`dict(zip(header, row))`, so for duplicate header names the last column wins,
and an absent key yields the empty string (a `DictWriter` writes `None`
rest-values as empty). -/
def dictGet (header row : List String) (k : String) : String :=
  (((header.zip row).reverse).lookup k).getD ""

/-- The schema test of `_migrate_columns_if_needed`:
`all(col in header for col in REQUIRED_FIELDS) and len(header) == len(REQUIRED_FIELDS)`. -/
def isCurrentSchema (header : List String) : Bool :=
  (REQUIRED_FIELDS.all (fun c => header.contains c)) &&
    header.length == REQUIRED_FIELDS.length

/-- One data row re-materialized under the current schema during migration:
`{k: r.get(k, "") for k in REQUIRED_FIELDS}` written by a `DictWriter` with
`fieldnames=REQUIRED_FIELDS`. -/
def migrateRow (header row : List String) : List String :=
  REQUIRED_FIELDS.map (dictGet header row)

/-- `_migrate_columns_if_needed` as a transformation of the file contents:
an empty or headerless file is replaced by a header-only file; a header that
passes the schema test leaves the file untouched; otherwise every data row is
re-keyed by the old header and rewritten under `REQUIRED_FIELDS` (the source
writes to a temp file and atomically renames it over the original). -/
def _migrate_columns_if_needed (file : CsvFile) : CsvFile :=
  match file with
  | [] => [REQUIRED_FIELDS]
  | header :: rows =>
    if header.isEmpty then [REQUIRED_FIELDS]
    else if isCurrentSchema header then header :: rows
    else REQUIRED_FIELDS :: rows.map (migrateRow header)

/-- `ensure_data_dir()` restricted to its effect on the submissions file:
create it with the schema header when missing, otherwise migrate if needed. -/
def ensure_data_dir (file : Option CsvFile) : CsvFile :=
  match file with
  | none => [REQUIRED_FIELDS]
  | some f => _migrate_columns_if_needed f

/-- Python `row.get(k, "")` on a caller-supplied dict. -/
def rowGet (r : RowDict) (k : String) : String :=
  (r.lookup k).getD ""

/-- The normalized record `{k: row.get(k, "") for k in REQUIRED_FIELDS}`
written by `append_submission`, in canonical field order. -/
def canonicalRow (r : RowDict) : List String :=
  REQUIRED_FIELDS.map (rowGet r)

/-- `append_submission(row)`: ensure the file, then append one normalized
record. -/
def append_submission (file : Option CsvFile) (row : RowDict) : CsvFile :=
  ensure_data_dir file ++ [canonicalRow row]

/-- `read_submissions()`: ensure the file, then read every data row as a
dict keyed by the header (`csv.DictReader`). -/
def read_submissions (file : Option CsvFile) : List RowDict :=
  match ensure_data_dir file with
  | [] => []
  | header :: rows => rows.map (fun r => header.zip r)

/-- Appending a sequence of rows one at a time. -/
def appendAll (file : Option CsvFile) (rows : List RowDict) : Option CsvFile :=
  rows.foldl (fun f r => some (append_submission f r)) file

/-! ### Column mapping and expected-quantity resolver (`src/utils/mapping.py`) -/

/-- The mapping dict persisted by the sidebar.  Optional columns hold `none`
where the Python dict holds `None`; `expected_col` is `none` when the key is
absent (an empty `load_mapping()` result). -/
structure ColumnMapping where
  sheet_name : String := ""
  header_row : Nat := 0
  location_col : Option String := none
  pallet_col : Option String := none
  sku_col : Option String := none
  lot_col : Option String := none
  expected_col : Option String := none
deriving Repr, DecidableEq

/-- `mapping.get(fkey)` for the filter keys used by the resolver. -/
def mget (m : ColumnMapping) (k : String) : Option String :=
  if k = "location_col" then m.location_col
  else if k = "pallet_col" then m.pallet_col
  else if k = "sku_col" then m.sku_col
  else if k = "lot_col" then m.lot_col
  else none

/-- The lookup dict passed to the resolver (keys are `*_col` names, values
are the lookup values); `lookup.get(fkey)` is association-list lookup. -/
abbrev Lookup := List (String × String)

def lget (l : Lookup) (k : String) : Option String :=
  l.lookup k

/-- A pandas `DataFrame` restricted to what the resolver observes: a list of
column labels and rows of string cells aligned with the labels. -/
structure DF where
  cols : List String
  rows : List (List String)
deriving Repr, DecidableEq

/-- `d[col]` for one row: the cell under column label `c` (for the distinct
labels produced by the loader, association lookup; absent labels give ""). -/
def cell (cols row : List String) (c : String) : String :=
  ((cols.zip row).lookup c).getD ""

/-- Python `str.strip()`: drop whitespace from both ends (implemented over
the character list so that proofs can evaluate it). -/
def pyStrip (s : String) : String :=
  String.mk (((s.data.dropWhile Char.isWhitespace).reverse.dropWhile
    Char.isWhitespace).reverse)

/-- The numeric value of a non-empty digit sequence. -/
def digitsToNat (cs : List Char) : Nat :=
  cs.foldl (fun acc c => acc * 10 + (c.toNat - 48)) 0

/-- A non-empty all-digit character sequence. -/
def isDigits (cs : List Char) : Bool :=
  !cs.isEmpty && cs.all Char.isDigit

/-- `_to_int`, first branch: Python `int(str)` on a stripped, optionally
signed, non-empty digit string (digit-grouping underscores are not used by
the data and are not modelled). -/
def parseIntPy (s : String) : Option Int :=
  match (pyStrip s).data with
  | '-' :: rest => if isDigits rest then some (-(digitsToNat rest : Int)) else none
  | '+' :: rest => if isDigits rest then some ((digitsToNat rest : Int)) else none
  | cs => if isDigits cs then some ((digitsToNat cs : Int)) else none

/-- `_to_int`, fallback branch: `int(float(str))` for plain decimal literals
`[sign] digits . digits` (at least one digit overall); `int` truncates toward
zero, so the result is the sign applied to the integer part.  Exotic float
spellings (exponents, `inf`, `nan`) do not appear in the data and coerce to
`none` like any unparseable value. -/
def parseFloatTruncPy (s : String) : Option Int :=
  let (sgn, body) :=
    match (pyStrip s).data with
    | '-' :: rest => (true, rest)
    | '+' :: rest => (false, rest)
    | cs => (false, cs)
  match body.splitOn '.' with
  | [a, b] =>
    if a.length + b.length = 0 then none
    else if a.all Char.isDigit && b.all Char.isDigit then
      some (if sgn then -(digitsToNat a : Int) else (digitsToNat a : Int))
    else none
  | _ => none

/-- `_to_int(val)` from `src/utils/mapping.py`. -/
def toIntOpt (s : String) : Option Int :=
  match parseIntPy s with
  | some n => some n
  | none => parseFloatTruncPy s

/-- The inner `filt(d, fkey)` of `get_expected_qty`: `None` when the mapped
column is unset/empty, not among the columns, or the lookup value is absent
or empty; otherwise the rows whose trimmed cell equals the trimmed lookup
value, in table order. -/
def filt (m : ColumnMapping) (lookup : Lookup) (cols : List String)
    (d : List (List String)) (fkey : String) : Option (List (List String)) :=
  match mget m fkey with
  | none => none
  | some col =>
    if col = "" then none
    else if ¬ (cols.contains col) then none
    else
      match lget lookup fkey with
      | none => none
      | some v =>
        if v = "" then none
        else some (d.filter (fun r => pyStrip (cell cols r col) == pyStrip v))

/-- The inner loop `for f in fields`: chain `filt` over the fields of one
strategy, aborting with `none` as soon as one `filt` returns `None` (the
source sets `ok = False` and breaks). -/
def applyFilters (m : ColumnMapping) (lookup : Lookup) (cols : List String) :
    List (List String) → List String → Option (List (List String))
  | d, [] => some d
  | d, f :: fs =>
    match filt m lookup cols d f with
    | none => none
    | some d2 => applyFilters m lookup cols d2 fs

/-- The strategy loop of `get_expected_qty`: stop at the first strategy
whose chained filter result is non-empty and coerce the `expected_col` cell
of its first row; a successful strategy with `expected_col` missing from the
columns raises `KeyError` in pandas, caught by the outer `try` as `None`. -/
def tryStrategies (m : ColumnMapping) (lookup : Lookup) (df : DF) (ec : String) :
    List (List String) → Option Int
  | [] => none
  | fields :: rest =>
    match applyFilters m lookup df.cols df.rows fields with
    | some (r :: _) =>
      if df.cols.contains ec then toIntOpt (cell df.cols r ec) else none
    | _ => tryStrategies m lookup df ec rest

/-- The fixed strategy order of `get_expected_qty`. -/
def strategies : List (List String) :=
  [["pallet_col", "location_col"], ["pallet_col"], ["location_col"],
   ["sku_col", "lot_col"], ["sku_col"]]

/-- `get_expected_qty(df, mapping, lookup)` from `src/utils/mapping.py`. -/
def get_expected_qty (df : DF) (m : ColumnMapping) (lookup : Lookup) : Option Int :=
  if df.rows.isEmpty || df.cols.isEmpty then none
  else
    match m.expected_col with
    | none => none
    | some ec =>
      if ec = "" then none
      else tryStrategies m lookup df ec strategies

/-- The mapping dict built by the sidebar save handler in `src/app.py`
(lines 294-302): each optional column is `col or None` (empty string becomes
`None`), while `expected_col` is stored as selected. -/
def sidebar_mapping (sheet : String) (hdr : Nat)
    (loc pal sku lot exp : String) : ColumnMapping :=
  { sheet_name := sheet
    header_row := hdr
    location_col := if loc = "" then none else some loc
    pallet_col := if pal = "" then none else some pal
    sku_col := if sku = "" then none else some sku
    lot_col := if lot = "" then none else some lot
    expected_col := some exp }

/-- `save_mapping(mapping)`: the durable mapping record is overwritten
wholesale with the given dict. -/
def save_mapping (m : ColumnMapping) (_prev : Option ColumnMapping) :
    Option ColumnMapping :=
  some m

/-- `load_mapping()`: the stored record, or an empty dict when absent. -/
def load_mapping (store : Option ColumnMapping) : ColumnMapping :=
  store.getD {}

/-! ### Dashboard discrepancy aggregation (`src/app.py`, `tab_dashboard`) -/

/-- One submission row as the dashboard sees it (all cells strings; a `NaN`
from a short CSV row is `fillna`-ed to the empty string, so strings model
every observed value). -/
structure Submission where
  timestamp : String
  user : String
  location : String
  sku : String
  lot : String
  expected_qty : String
  counted_qty : String
  issue_type : String
  actual_pallet : String
  note : String
deriving Repr, DecidableEq

/-- The `disc` frame: submissions whose `issue_type` is neither `"Match"`
nor `"MISSING"`. -/
def nonMatches (subs : List Submission) : List Submission :=
  subs.filter (fun s => !(s.issue_type == "Match") && !(s.issue_type == "MISSING"))

/-- Python `str.upper()` on the ASCII location codes, over the character
list so that proofs can evaluate it. -/
def pyUpper (s : String) : String :=
  String.mk (s.data.map Char.toUpper)

/-- `location.fillna("").str.upper().str.startswith("TUN")`. -/
def isTUN (location : String) : Bool :=
  ("TUN".data).isPrefixOf (pyUpper location).data

/-- The `bulk` frame: non-matches outside TUN-prefixed locations. -/
def bulkRows (subs : List Submission) : List Submission :=
  (nonMatches subs).filter (fun s => !(isTUN s.location))

/-- The grouping tuple `(location, actual_pallet, sku, lot)`. -/
def groupKey (s : Submission) : String × String × String × String :=
  (s.location, s.actual_pallet, s.sku, s.lot)

/-- `bulk.groupby(["location","actual_pallet","sku","lot"]).size()`: one
entry per distinct key with the number of its rows (pandas sorts the keys;
the claims are order-insensitive, so first-occurrence order is used). -/
def gbSize (b : List Submission) :
    List ((String × String × String × String) × Nat) :=
  ((b.map groupKey).dedup).map (fun k => (k, b.countP (fun s => groupKey s == k)))

/-- The member rows shown for one group: the mask selecting the rows of
`bulk` whose four key fields equal the group's key. -/
def groupMembers (b : List Submission) (k : String × String × String × String) :
    List Submission :=
  b.filter (fun s => groupKey s == k)

/-! ### Helper lemmas about the association-list dictionary model -/

theorem lookupA_setA_self (tbl : AssignTable) (k : String) (v : Assignment) :
    lookupA (setA tbl k v) k = some v := by
  induction tbl with
  | nil => simp [setA, lookupA]
  | cons hd tl ih =>
    by_cases h : hd.1 = k
    · simp [setA, lookupA, h]
    · simp [setA, lookupA, h, ih]

theorem setA_setA (tbl : AssignTable) (k : String) (v w : Assignment) :
    setA (setA tbl k v) k w = setA tbl k w := by
  induction tbl with
  | nil => simp [setA]
  | cons hd tl ih =>
    by_cases h : hd.1 = k
    · simp [setA, h]
    · simp [setA, h, ih]

theorem setA_length (tbl : AssignTable) (k : String) (v : Assignment) :
    (setA tbl k v).length = if (lookupA tbl k).isSome then tbl.length else tbl.length + 1 := by
  induction tbl with
  | nil => simp [setA, lookupA]
  | cons hd tl ih =>
    by_cases h : hd.1 = k
    · simp [setA, lookupA, h]
    · simp [setA, lookupA, h, ih]
      by_cases h2 : (lookupA tl k).isSome <;> simp [h2]

/-! ### Claims about the assignment store -/

/-- Claim C1 (code bug, code evaluated at the failing input): two calls to
`create_assignment` with identical arguments whose clock readings fall in
the same whole second (epoch microseconds 100000000 and 100999999, both in
second 100) return the same id `"u-p-100"`, and after the second call the
table holds a single assignment — the second create silently overwrote the
first, contradicting the stated uniqueness of ids. -/
theorem claim_C1_id_collision :
    (create_assignment "u" "p" "L" 1 100000000 100000000 100000000 []).1
      = (create_assignment "u" "p" "L" 1 100999999 100999999 100999999
          (create_assignment "u" "p" "L" 1 100000000 100000000 100000000 []).2).1
    ∧ (create_assignment "u" "p" "L" 1 100999999 100999999 100999999
        (create_assignment "u" "p" "L" 1 100000000 100000000 100000000 []).2).2.length
      = 1 := by
  constructor <;> rfl

/-- Claim C5 (amended): after `create_assignment`, `get` on the returned id
yields a record with status `"assigned"`, empty sku and lot, `created_at`
equal to the second clock reading and `locked_until` equal to the third
clock reading plus 20 minutes; hence `created_at + 20min ≤ locked_until`,
with equality exactly when the two clock readings coincide. -/
theorem claim_C5_create_then_get (user pallet loc : String) (qty : Int)
    (tId tCa tLu : Micros) (tbl : AssignTable) (hmono : tCa ≤ tLu) :
    ∃ a, get (create_assignment user pallet loc qty tId tCa tLu tbl).2
            (create_assignment user pallet loc qty tId tCa tLu tbl).1 = some a
      ∧ a.status = "assigned" ∧ a.sku = "" ∧ a.lot = ""
      ∧ a.created_at = tCa ∧ a.locked_until = tLu + lockDelta
      ∧ a.created_at + lockDelta ≤ a.locked_until
      ∧ (tCa = tLu → a.locked_until = a.created_at + lockDelta) := by
  refine ⟨{ user := user, pallet_id := pallet, location := loc, expected_qty := qty,
            created_at := tCa, locked_until := tLu + lockDelta,
            status := "assigned", sku := "", lot := "" },
          ?_, rfl, rfl, rfl, rfl, rfl, ?_, ?_⟩
  · exact lookupA_setA_self tbl _ _
  · exact Nat.add_le_add_right hmono lockDelta
  · intro h; simp [h]

/-- Claim C5 witness: the amended statement instantiated at a concrete
create whose clock readings coincide. -/
theorem claim_C5_witness :
    ∃ a, get (create_assignment "u" "p" "L" 1 5 5 5 []).2
            (create_assignment "u" "p" "L" 1 5 5 5 []).1 = some a
      ∧ a.status = "assigned" ∧ a.sku = "" ∧ a.lot = ""
      ∧ a.created_at = 5 ∧ a.locked_until = 5 + lockDelta
      ∧ a.created_at + lockDelta ≤ a.locked_until
      ∧ (5 = 5 → a.locked_until = a.created_at + lockDelta) :=
  claim_C5_create_then_get "u" "p" "L" 1 5 5 5 [] (Nat.le_refl 5)

/-- Claim C5 counterexample: the claim as stated is false on the code — the
source computes `created_at` and `locked_until` from two separate
`datetime.utcnow()` calls, so when the clock advances by one microsecond
between them the stored `locked_until` (1200000001) differs from
`created_at + 20 minutes` (1200000000). -/
theorem claim_C5_counterexample :
    get (create_assignment "u" "p" "L" 1 0 0 1 []).2 "u-p-0"
      = some { user := "u", pallet_id := "p", location := "L", expected_qty := 1,
               created_at := 0, locked_until := 1200000001,
               status := "assigned", sku := "", lot := "" }
    ∧ (1200000001 : Micros) ≠ 0 + lockDelta := by
  refine ⟨rfl, ?_⟩
  decide

/-- Claim C6 (amended): the create-button handler in `tab_assignments`
rejects an empty assignee, pallet id or location before calling the store —
it returns no id and leaves the assignment table (and hence the durable
mirror) unchanged. -/
theorem claim_C6_ui_guard (assignee pallet loc : String) (expected : Int)
    (tId tCa tLu : Micros) (tbl : AssignTable)
    (hempty : assignee = "" ∨ pallet = "" ∨ loc = "") :
    tab_create_click assignee pallet loc expected tId tCa tLu tbl = (none, tbl) := by
  unfold tab_create_click
  rw [if_pos hempty]

/-- Claim C6 witness: the guard applied to an empty assignee. -/
theorem claim_C6_witness :
    tab_create_click "" "p" "L" 0 0 0 0 [] = (none, []) :=
  claim_C6_ui_guard "" "p" "L" 0 0 0 0 [] (Or.inl rfl)

/-- Claim C6 counterexample: the Assignment Store's own `create_assignment`
performs no validation — called with empty assignee, pallet id and location
it raises nothing, returns the id `"--0"` and writes a new record into the
table, so the store-level operation neither fails with a `ValidationError`
nor leaves the table unchanged. -/
theorem claim_C6_counterexample :
    (create_assignment "" "" "" 0 0 0 0 []).1 = "--0"
    ∧ (create_assignment "" "" "" 0 0 0 0 []).2
      = [("--0", { user := "", pallet_id := "", location := "", expected_qty := 0,
                   created_at := 0, locked_until := 1200000000,
                   status := "assigned", sku := "", lot := "" })] := by
  constructor <;> rfl

/-- Claim C7: `complete` is idempotent and total — completing twice equals
completing once, the status after completing an existing id is
`"completed"`, and completing an unknown id is a no-op returning the table
unchanged (the function is total, so no call raises). -/
theorem claim_C7_complete_idempotent (tbl : AssignTable) (aid : String) :
    complete (complete tbl aid) aid = complete tbl aid
    ∧ (∀ a, lookupA tbl aid = some a →
        (lookupA (complete (complete tbl aid) aid) aid).map Assignment.status
          = some "completed")
    ∧ (lookupA tbl aid = none → complete tbl aid = tbl) := by
  have hfix : ∀ b : Assignment, b.status = "completed" →
      ({ b with status := "completed" } : Assignment) = b := by
    intro b hb; cases b; simp_all
  have hidem : complete (complete tbl aid) aid = complete tbl aid := by
    cases h : lookupA tbl aid with
    | none => simp [complete, h]
    | some a =>
      simp only [complete, h, lookupA_setA_self]
      exact setA_setA tbl aid _ _
  refine ⟨hidem, ?_, ?_⟩
  · intro a ha
    rw [hidem]
    unfold complete
    rw [ha, lookupA_setA_self]
    rfl
  · intro h
    unfold complete
    rw [h]

/-- A concrete assignment record used by the C7 witness. -/
def aEx : Assignment :=
  { user := "u", pallet_id := "p", location := "L", expected_qty := 1,
    created_at := 0, locked_until := 0, status := "assigned", sku := "", lot := "" }

/-- Claim C7 witness: idempotence, the completed status of an existing id
and the no-op on an unknown id, all at a concrete one-entry table. -/
theorem claim_C7_witness :
    complete (complete [("a1", aEx)] "a1") "a1" = complete [("a1", aEx)] "a1"
    ∧ (lookupA (complete (complete [("a1", aEx)] "a1") "a1") "a1").map
        Assignment.status = some "completed"
    ∧ complete [] "zz" = [] := by
  refine ⟨(claim_C7_complete_idempotent [("a1", aEx)] "a1").1, ?_, ?_⟩
  · exact (claim_C7_complete_idempotent [("a1", aEx)] "a1").2.1 aEx rfl
  · exact (claim_C7_complete_idempotent [] "zz").2.2 rfl

/-! ### Helper lemmas about the submission-log model -/

theorem zip_map_graph (l : List String) (f : String → String) :
    l.zip (l.map f) = l.map (fun x => (x, f x)) := by
  induction l with
  | nil => rfl
  | cons a t ih => simp [ih]

theorem lookup_map_graph (l : List String) (f : String → String) (k : String) :
    k ∈ l → ((l.map (fun x => (x, f x))).lookup k) = some (f k) := by
  induction l with
  | nil => intro hk; cases hk
  | cons a t ih =>
    intro hk
    by_cases h : k = a
    · subst h; simp [List.lookup]
    · rcases List.mem_cons.mp hk with hk | hk
      · exact absurd hk h
      · simpa [List.lookup, beq_eq_false_iff_ne.mpr h] using ih hk

theorem lookup_eq_none_of_keys (l : List (String × String)) (k : String)
    (h : ∀ p ∈ l, p.1 ≠ k) : l.lookup k = none := by
  induction l with
  | nil => rfl
  | cons p t ih =>
    have hp : ¬ (k = p.1) := fun he => h p (List.mem_cons_self p t) he.symm
    simp only [List.lookup, beq_eq_false_iff_ne.mpr hp]
    exact ih (fun q hq => h q (List.mem_cons_of_mem p hq))

/-- A field absent from the old header reads back as the empty string. -/
theorem dictGet_not_mem (header row : List String) (k : String)
    (hk : k ∉ header) : dictGet header row k = "" := by
  unfold dictGet
  rw [lookup_eq_none_of_keys]
  · rfl
  · intro p hp he
    exact hk (he ▸ (List.of_mem_zip (List.mem_reverse.mp hp)).1)

/-- Migration of a current-schema file is the identity. -/
theorem migrate_canonical (ds : List (List String)) :
    _migrate_columns_if_needed (REQUIRED_FIELDS :: ds) = REQUIRED_FIELDS :: ds := by
  have h1 : (REQUIRED_FIELDS : List String).isEmpty = false := rfl
  have h2 : isCurrentSchema REQUIRED_FIELDS = true := rfl
  simp [_migrate_columns_if_needed, h1, h2]

theorem appendAll_canonical (rs : List RowDict) :
    ∀ ds : List (List String),
      appendAll (some (REQUIRED_FIELDS :: ds)) rs
        = some (REQUIRED_FIELDS :: (ds ++ rs.map canonicalRow)) := by
  induction rs with
  | nil => intro ds; simp [appendAll]
  | cons r rest ih =>
    intro ds
    have hstep : append_submission (some (REQUIRED_FIELDS :: ds)) r
        = REQUIRED_FIELDS :: (ds ++ [canonicalRow r]) := by
      simp [append_submission, ensure_data_dir, migrate_canonical]
    show appendAll (some (append_submission (some (REQUIRED_FIELDS :: ds)) r)) rest = _
    rw [hstep, ih (ds ++ [canonicalRow r])]
    simp

/-! ### Claims about the submission log -/

/-- Claim C3 (amended): migrating a file whose non-empty header fails the
schema test rewrites it under `REQUIRED_FIELDS`, keeps the number of data
rows, preserves — for every current-schema field — the value the old header
gave that field (so values under old fields outside the current schema are
dropped), and fills every current field absent from the old header with the
empty string. -/
theorem claim_C3_migration (header : List String) (rows : List (List String))
    (hne : header ≠ []) (hdiff : isCurrentSchema header = false) :
    _migrate_columns_if_needed (header :: rows)
      = REQUIRED_FIELDS :: rows.map (migrateRow header)
    ∧ (rows.map (migrateRow header)).length = rows.length
    ∧ ∀ r k, k ∈ REQUIRED_FIELDS →
        rowGet (REQUIRED_FIELDS.zip (migrateRow header r)) k = dictGet header r k
        ∧ (k ∉ header → rowGet (REQUIRED_FIELDS.zip (migrateRow header r)) k = "") := by
  have hval : ∀ r k, k ∈ REQUIRED_FIELDS →
      rowGet (REQUIRED_FIELDS.zip (migrateRow header r)) k = dictGet header r k := by
    intro r k hk
    unfold rowGet migrateRow
    rw [zip_map_graph, lookup_map_graph _ _ _ hk]
    rfl
  refine ⟨?_, by simp, ?_⟩
  · have hie : header.isEmpty = false := by
      cases header with
      | nil => exact absurd rfl hne
      | cons a t => rfl
    have hred : _migrate_columns_if_needed (header :: rows)
        = if header.isEmpty then [REQUIRED_FIELDS]
          else if isCurrentSchema header then header :: rows
          else REQUIRED_FIELDS :: rows.map (migrateRow header) := rfl
    rw [hred, hie, hdiff]
    simp
  · intro r k hk
    refine ⟨hval r k hk, fun hnm => ?_⟩
    rw [hval r k hk, dictGet_not_mem _ _ _ hnm]

/-- Claim C3 witness: the amended migration statement instantiated at a
two-column legacy file with a single data row. -/
theorem claim_C3_witness :
    _migrate_columns_if_needed [["timestamp", "legacy"], ["t1", "x"]]
      = REQUIRED_FIELDS :: [["t1", "x"]].map (migrateRow ["timestamp", "legacy"])
    ∧ ([["t1", "x"]].map (migrateRow ["timestamp", "legacy"])).length
        = [["t1", "x"]].length
    ∧ ∀ r k, k ∈ REQUIRED_FIELDS →
        rowGet (REQUIRED_FIELDS.zip (migrateRow ["timestamp", "legacy"] r)) k
          = dictGet ["timestamp", "legacy"] r k
        ∧ (k ∉ ["timestamp", "legacy"] →
            rowGet (REQUIRED_FIELDS.zip (migrateRow ["timestamp", "legacy"] r)) k
              = "") :=
  claim_C3_migration ["timestamp", "legacy"] [["t1", "x"]] (by simp) (by decide)

/-- Claim C3 counterexample: the claim as stated is false — for the legacy
header `["timestamp", "legacy"]` with data row `["t1", "x"]`, the column
`legacy` is not part of the current schema, so after migration the value
`"x"` appears nowhere in the file: not every prior field value is
preserved. -/
theorem claim_C3_counterexample :
    _migrate_columns_if_needed [["timestamp", "legacy"], ["t1", "x"]]
      = [REQUIRED_FIELDS, ["t1", "", "", "", "", "", "", "", "", ""]]
    ∧ (_migrate_columns_if_needed [["timestamp", "legacy"], ["t1", "x"]]).all
        (fun row => !(row.contains "x")) = true := by
  constructor <;> rfl

/-- Claim C4: appending any sequence of rows to a fresh submission log and
then reading it back returns exactly as many rows as were appended, in
append order, each equal to the appended row normalized to the 10-field
schema (missing fields empty, extra fields dropped). -/
theorem claim_C4_round_trip (rs : List RowDict) :
    read_submissions (appendAll none rs)
      = rs.map (fun r => REQUIRED_FIELDS.zip (canonicalRow r))
    ∧ (read_submissions (appendAll none rs)).length = rs.length := by
  have hread : ∀ ds : List (List String),
      read_submissions (some (REQUIRED_FIELDS :: ds))
        = ds.map (fun r => REQUIRED_FIELDS.zip r) := by
    intro ds
    simp [read_submissions, ensure_data_dir, migrate_canonical]
  have hmain : read_submissions (appendAll none rs)
      = rs.map (fun r => REQUIRED_FIELDS.zip (canonicalRow r)) := by
    cases rs with
    | nil => rfl
    | cons r rest =>
      have hfirst : append_submission none r = REQUIRED_FIELDS :: [canonicalRow r] := rfl
      show read_submissions (appendAll (some (append_submission none r)) rest) = _
      rw [hfirst, appendAll_canonical rest [canonicalRow r], hread]
      simp
  exact ⟨hmain, by rw [hmain]; simp⟩

/-- Claim C10: a stored header that is a permutation of the current fields
passes the schema test, so migration leaves the file byte-for-byte
unchanged; a subsequent append nevertheless writes its values in the
canonical `REQUIRED_FIELDS` order, not the stored header order. -/
theorem claim_C10_permuted_header (header : List String) (rows : List (List String))
    (row : RowDict) (hperm : header.Perm REQUIRED_FIELDS) :
    _migrate_columns_if_needed (header :: rows) = header :: rows
    ∧ append_submission (some (header :: rows)) row
        = header :: (rows ++ [canonicalRow row]) := by
  have hlen : header.length = REQUIRED_FIELDS.length := hperm.length_eq
  have hne : header.isEmpty = false := by
    cases header with
    | nil => exact absurd hlen (by decide)
    | cons a t => rfl
  have hschema : isCurrentSchema header = true := by
    unfold isCurrentSchema
    refine (Bool.and_eq_true _ _).mpr ⟨?_, by simp [hlen]⟩
    rw [List.all_eq_true]
    intro c hc
    exact List.elem_eq_true_of_mem (hperm.mem_iff.mpr hc)
  have hmig : _migrate_columns_if_needed (header :: rows) = header :: rows := by
    have hred : _migrate_columns_if_needed (header :: rows)
        = if header.isEmpty then [REQUIRED_FIELDS]
          else if isCurrentSchema header then header :: rows
          else REQUIRED_FIELDS :: rows.map (migrateRow header) := rfl
    rw [hred, hne, hschema]
    simp
  refine ⟨hmig, ?_⟩
  simp [append_submission, ensure_data_dir, hmig]

/-- Claim C10 witness: a header listing the current fields in reverse order
is left unchanged by migration, while the appended row comes out in
canonical order. -/
theorem claim_C10_witness :
    _migrate_columns_if_needed (REQUIRED_FIELDS.reverse :: []) = [REQUIRED_FIELDS.reverse]
    ∧ append_submission (some (REQUIRED_FIELDS.reverse :: [])) [("user", "bob")]
        = REQUIRED_FIELDS.reverse :: ([] ++ [canonicalRow [("user", "bob")]]) :=
  claim_C10_permuted_header REQUIRED_FIELDS.reverse [] [("user", "bob")]
    (List.reverse_perm REQUIRED_FIELDS)

/-! ### Helper lemmas about the expected-quantity resolver -/

/-- Every row a successful `filt` delivers comes from its input: the only
non-`None` branch of `filt` is a `filter` of `d`. -/
theorem filt_subset (m : ColumnMapping) (lookup : Lookup) (cols : List String)
    (d : List (List String)) (fkey : String) (d1 : List (List String))
    (h : filt m lookup cols d fkey = some d1) : ∀ x ∈ d1, x ∈ d := by
  intro x hx
  unfold filt at h
  cases hm : mget m fkey with
  | none =>
    simp only [hm] at h
    exact Option.noConfusion h
  | some col =>
    simp only [hm] at h
    by_cases h1 : col = ""
    · rw [if_pos h1] at h; exact Option.noConfusion h
    · rw [if_neg h1] at h
      by_cases h2 : cols.contains col = true
      · rw [if_neg (not_not_intro h2)] at h
        cases hv : lget lookup fkey with
        | none => simp only [hv] at h; exact Option.noConfusion h
        | some v =>
          simp only [hv] at h
          by_cases h3 : v = ""
          · rw [if_pos h3] at h; exact Option.noConfusion h
          · rw [if_neg h3] at h
            injection h with h4
            rw [← h4] at hx
            exact List.mem_of_mem_filter hx
      · rw [if_pos h2] at h; exact Option.noConfusion h

/-- Every row a successful filter chain delivers comes from its input. -/
theorem applyFilters_mem (m : ColumnMapping) (lookup : Lookup) (cols : List String) :
    ∀ (fields : List String) (d d2 : List (List String)),
      applyFilters m lookup cols d fields = some d2 → ∀ x ∈ d2, x ∈ d := by
  intro fields
  induction fields with
  | nil =>
    intro d d2 h x hx
    simp only [applyFilters] at h
    injection h with h1
    subst h1
    exact hx
  | cons f fs ih =>
    intro d d2 h x hx
    cases hf : filt m lookup cols d f with
    | none =>
      simp only [applyFilters, hf] at h
      exact Option.noConfusion h
    | some d1 =>
      simp only [applyFilters, hf] at h
      exact filt_subset m lookup cols d f d1 hf x (ih d1 d2 h x hx)

/-- A strategy whose filter chain is skipped (`none`) or yields no row is
passed over: the loop continues with the remaining strategies. -/
theorem tryStrategies_skip (m : ColumnMapping) (lookup : Lookup) (df : DF)
    (ec : String) :
    ∀ (pre rest : List (List String)),
      (∀ g ∈ pre, applyFilters m lookup df.cols df.rows g = none
          ∨ applyFilters m lookup df.cols df.rows g = some []) →
      tryStrategies m lookup df ec (pre ++ rest) = tryStrategies m lookup df ec rest := by
  intro pre
  induction pre with
  | nil => intro rest _; rfl
  | cons g pre2 ih =>
    intro rest hmiss
    have htail : ∀ g2 ∈ pre2, applyFilters m lookup df.cols df.rows g2 = none
        ∨ applyFilters m lookup df.cols df.rows g2 = some [] :=
      fun g2 hg2 => hmiss g2 (List.mem_cons_of_mem g hg2)
    cases hmiss g (List.mem_cons_self g pre2) with
    | inl h =>
      simp only [List.cons_append, tryStrategies, h]
      exact ih rest htail
    | inr h =>
      simp only [List.cons_append, tryStrategies, h]
      exact ih rest htail

/-- The first strategy whose filter chain yields at least one row decides
the result, whatever the later strategies are: the answer is the
`expected_col` cell of the first row the chain kept (table order). -/
theorem tryStrategies_hit (m : ColumnMapping) (lookup : Lookup) (df : DF)
    (ec : String) (fields : List String) (rest : List (List String))
    (r : List String) (tail : List (List String))
    (h : applyFilters m lookup df.cols df.rows fields = some (r :: tail))
    (hecc : df.cols.contains ec = true) :
    tryStrategies m lookup df ec (fields :: rest) = toIntOpt (cell df.cols r ec) := by
  simp only [tryStrategies, h]
  rw [if_pos hecc]

/-- When every strategy misses, the loop falls through and returns `none`. -/
theorem tryStrategies_all_miss (m : ColumnMapping) (lookup : Lookup) (df : DF)
    (ec : String) :
    ∀ l : List (List String),
      (∀ g ∈ l, applyFilters m lookup df.cols df.rows g = none
          ∨ applyFilters m lookup df.cols df.rows g = some []) →
      tryStrategies m lookup df ec l = none := by
  intro l
  induction l with
  | nil => intro _; rfl
  | cons g t ih =>
    intro hmiss
    have htail : ∀ g2 ∈ t, applyFilters m lookup df.cols df.rows g2 = none
        ∨ applyFilters m lookup df.cols df.rows g2 = some [] :=
      fun g2 hg2 => hmiss g2 (List.mem_cons_of_mem g hg2)
    cases hmiss g (List.mem_cons_self g t) with
    | inl h => simp only [tryStrategies, h]; exact ih htail
    | inr h => simp only [tryStrategies, h]; exact ih htail

/-! ### Claim about the expected-quantity resolver -/

/-- Claim C2: with `expected_col` set, non-empty and present in the table,
the resolver scans the five filter strategies in exactly the fixed priority
order pallet+location, pallet, location, sku+lot, sku: (a) for every split
of that list, if each earlier strategy misses (its chain is skipped with
`None`, or it keeps no row) and the next strategy keeps at least one row,
the result is the `expected_col` value of the first kept row in table
order, irrespective of what the later strategies would yield; (b) if all
five strategies miss, the result is `none`. -/
theorem claim_C2_resolver_fixed_order (df : DF) (m : ColumnMapping)
    (lookup : Lookup) (ec : String)
    (hec : m.expected_col = some ec) (hec0 : ec ≠ "")
    (hecc : df.cols.contains ec = true) :
    (∀ (pre : List (List String)) (fields : List String)
        (post : List (List String)) (r : List String) (tail : List (List String)),
      [["pallet_col", "location_col"], ["pallet_col"], ["location_col"],
          ["sku_col", "lot_col"], ["sku_col"]] = pre ++ fields :: post →
      (∀ g ∈ pre, applyFilters m lookup df.cols df.rows g = none
          ∨ applyFilters m lookup df.cols df.rows g = some []) →
      applyFilters m lookup df.cols df.rows fields = some (r :: tail) →
      get_expected_qty df m lookup = toIntOpt (cell df.cols r ec))
    ∧ ((∀ g ∈ [["pallet_col", "location_col"], ["pallet_col"], ["location_col"],
            ["sku_col", "lot_col"], ["sku_col"]],
        applyFilters m lookup df.cols df.rows g = none
          ∨ applyFilters m lookup df.cols df.rows g = some []) →
      get_expected_qty df m lookup = none) := by
  have hcols : df.cols.isEmpty = false := by
    have hec_mem : ec ∈ df.cols := List.mem_of_elem_eq_true hecc
    cases hdf : df.cols with
    | nil => rw [hdf] at hec_mem; cases hec_mem
    | cons a t => rfl
  constructor
  · intro pre fields post r tail hsplit hmiss hhit
    have hr_rows : r ∈ df.rows :=
      applyFilters_mem m lookup df.cols fields df.rows (r :: tail) hhit r
        (List.mem_cons_self r tail)
    have hrows : df.rows.isEmpty = false := by
      cases hdf : df.rows with
      | nil => rw [hdf] at hr_rows; cases hr_rows
      | cons a t => rfl
    have hstr : strategies = pre ++ fields :: post := hsplit
    unfold get_expected_qty
    rw [hrows, hcols, hec]
    simp only [Bool.or_self, Bool.false_eq_true, if_false]
    rw [if_neg hec0, hstr, tryStrategies_skip m lookup df ec pre (fields :: post) hmiss]
    exact tryStrategies_hit m lookup df ec fields post r tail hhit hecc
  · intro hmiss
    unfold get_expected_qty
    cases hb : (df.rows.isEmpty || df.cols.isEmpty) with
    | true => simp
    | false =>
      simp only [Bool.false_eq_true, if_false, hec]
      rw [if_neg hec0]
      exact tryStrategies_all_miss m lookup df ec strategies hmiss

/-- The reference table of the C2 witness for the two pallet tiers: the
first row matches the pallet lookup alone with quantity 7, the second
matches both pallet and location with quantity 5. -/
def dfC2 : DF :=
  { cols := ["Pallet", "Loc", "Qty"],
    rows := [["P1", "A2", "7"], ["P1", "A1", "5"]] }

/-- The mapping of the C2 witness for the two pallet tiers. -/
def mC2 : ColumnMapping :=
  { pallet_col := some "Pallet", location_col := some "Loc",
    expected_col := some "Qty" }

/-- The lookup of the C2 witness, as built by `tab_assignments`. -/
def lkC2 : Lookup :=
  [("pallet_col", "P1"), ("location_col", "A1"), ("sku_col", ""), ("lot_col", "")]

/-- A five-column reference table exercising the location, sku+lot and
sku-alone fallback tiers of the C2 witness. -/
def dfC2b : DF :=
  { cols := ["Pallet", "Loc", "Sku", "Lot", "Qty"],
    rows := [["P1", "A1", "S1", "L1", "9"], ["P2", "A2", "S2", "L2", "11"]] }

/-- A mapping with all five columns set, for the deep tiers of the C2
witness. -/
def mC2b : ColumnMapping :=
  { pallet_col := some "Pallet", location_col := some "Loc",
    sku_col := some "Sku", lot_col := some "Lot", expected_col := some "Qty" }

/-- Claim C2 witness: one concrete run per tier.  Tier 1: the
pallet+location row's quantity 5 beats the earlier pallet-only row's 7.
Tier 2: with no pallet+location match, the first pallet row's 7 is
returned.  Tier 3: an empty pallet value skips the first two tiers and the
location match returns 11.  Tier 4: empty pallet and location values fall
through to the sku+lot match, 11.  Tier 5: with the lot value empty too,
the sku-alone match returns 9.  And when every tier misses the resolver
returns none. -/
theorem claim_C2_witness :
    get_expected_qty dfC2 mC2 lkC2 = some 5
    ∧ get_expected_qty dfC2 mC2
        [("pallet_col", "P1"), ("location_col", "ZZ"), ("sku_col", ""), ("lot_col", "")]
      = some 7
    ∧ get_expected_qty dfC2b mC2b
        [("pallet_col", ""), ("location_col", "A2"), ("sku_col", ""), ("lot_col", "")]
      = some 11
    ∧ get_expected_qty dfC2b mC2b
        [("pallet_col", ""), ("location_col", ""), ("sku_col", "S2"), ("lot_col", "L2")]
      = some 11
    ∧ get_expected_qty dfC2b mC2b
        [("pallet_col", ""), ("location_col", ""), ("sku_col", "S1"), ("lot_col", "")]
      = some 9
    ∧ get_expected_qty dfC2b mC2b
        [("pallet_col", "ZZ"), ("location_col", ""), ("sku_col", ""), ("lot_col", "")]
      = none := by
  refine ⟨?_, ?_, ?_, ?_, ?_, ?_⟩
  · have h := (claim_C2_resolver_fixed_order dfC2 mC2 lkC2 "Qty" rfl (by decide)
        (by decide)).1 [] ["pallet_col", "location_col"]
        [["pallet_col"], ["location_col"], ["sku_col", "lot_col"], ["sku_col"]]
        ["P1", "A1", "5"] [] (by decide) (by decide) (by decide)
    rw [h]; decide
  · have h := (claim_C2_resolver_fixed_order dfC2 mC2
        [("pallet_col", "P1"), ("location_col", "ZZ"), ("sku_col", ""), ("lot_col", "")]
        "Qty" rfl (by decide) (by decide)).1
        [["pallet_col", "location_col"]] ["pallet_col"]
        [["location_col"], ["sku_col", "lot_col"], ["sku_col"]]
        ["P1", "A2", "7"] [["P1", "A1", "5"]] (by decide) (by decide) (by decide)
    rw [h]; decide
  · have h := (claim_C2_resolver_fixed_order dfC2b mC2b
        [("pallet_col", ""), ("location_col", "A2"), ("sku_col", ""), ("lot_col", "")]
        "Qty" rfl (by decide) (by decide)).1
        [["pallet_col", "location_col"], ["pallet_col"]] ["location_col"]
        [["sku_col", "lot_col"], ["sku_col"]]
        ["P2", "A2", "S2", "L2", "11"] [] (by decide) (by decide) (by decide)
    rw [h]; decide
  · have h := (claim_C2_resolver_fixed_order dfC2b mC2b
        [("pallet_col", ""), ("location_col", ""), ("sku_col", "S2"), ("lot_col", "L2")]
        "Qty" rfl (by decide) (by decide)).1
        [["pallet_col", "location_col"], ["pallet_col"], ["location_col"]]
        ["sku_col", "lot_col"] [["sku_col"]]
        ["P2", "A2", "S2", "L2", "11"] [] (by decide) (by decide) (by decide)
    rw [h]; decide
  · have h := (claim_C2_resolver_fixed_order dfC2b mC2b
        [("pallet_col", ""), ("location_col", ""), ("sku_col", "S1"), ("lot_col", "")]
        "Qty" rfl (by decide) (by decide)).1
        [["pallet_col", "location_col"], ["pallet_col"], ["location_col"],
          ["sku_col", "lot_col"]] ["sku_col"] []
        ["P1", "A1", "S1", "L1", "9"] [] (by decide) (by decide) (by decide)
    rw [h]; decide
  · exact (claim_C2_resolver_fixed_order dfC2b mC2b
        [("pallet_col", "ZZ"), ("location_col", ""), ("sku_col", ""), ("lot_col", "")]
        "Qty" rfl (by decide) (by decide)).2 (by decide)

/-! ### Claim about the dashboard discrepancy aggregation -/

/-- Claim C8: `nonMatches` is exactly the submissions whose issue type is
neither `"Match"` nor `"MISSING"`; the bulk rows are exactly the non-matches
whose location does not start with the case-insensitive prefix `"TUN"`; the
group table has one entry per key whose count equals the number of member
rows, every member row carries the group's `(location, actual_pallet, sku,
lot)` key, and every bulk row belongs to the group of its own key.  In
particular a `"Match"` submission is never a non-match and a `"TUN-04"`
submission is never a bulk row. -/
theorem claim_C8_aggregation (subs : List Submission) :
    (∀ s, s ∈ nonMatches subs ↔
        (s ∈ subs ∧ s.issue_type ≠ "Match" ∧ s.issue_type ≠ "MISSING"))
    ∧ (∀ s, s ∈ bulkRows subs ↔
        (s ∈ nonMatches subs ∧ isTUN s.location = false))
    ∧ (∀ s, s.issue_type = "Match" → s ∉ nonMatches subs)
    ∧ (∀ s, s.location = "TUN-04" → s ∉ bulkRows subs)
    ∧ (∀ k n, (k, n) ∈ gbSize (bulkRows subs) →
        n = (groupMembers (bulkRows subs) k).length
        ∧ ∀ s ∈ groupMembers (bulkRows subs) k, groupKey s = k ∧ s ∈ bulkRows subs)
    ∧ (∀ s ∈ bulkRows subs,
        (groupKey s, (bulkRows subs).countP (fun x => groupKey x == groupKey s))
            ∈ gbSize (bulkRows subs)
        ∧ s ∈ groupMembers (bulkRows subs) (groupKey s)) := by
  have hnm : ∀ s, s ∈ nonMatches subs ↔
      (s ∈ subs ∧ s.issue_type ≠ "Match" ∧ s.issue_type ≠ "MISSING") := by
    intro s
    simp [nonMatches, List.mem_filter, and_assoc]
  have hbk : ∀ s, s ∈ bulkRows subs ↔
      (s ∈ nonMatches subs ∧ isTUN s.location = false) := by
    intro s
    simp [bulkRows, List.mem_filter]
  refine ⟨hnm, hbk, ?_, ?_, ?_, ?_⟩
  · intro s hs hmem
    exact (((hnm s).mp hmem).2.1) hs
  · intro s hs hmem
    have htun : isTUN s.location = true := by rw [hs]; decide
    rw [((hbk s).mp hmem).2] at htun
    cases htun
  · intro k n hkn
    rcases List.mem_map.mp hkn with ⟨k0, hk0, hpair⟩
    cases hpair
    constructor
    · rw [List.countP_eq_length_filter]
      rfl
    · intro s hsm
      have hsf := List.mem_filter.mp hsm
      exact ⟨eq_of_beq hsf.2, hsf.1⟩
  · intro s hs
    refine ⟨?_, List.mem_filter.mpr ⟨hs, beq_self_eq_true (groupKey s)⟩⟩
    exact List.mem_map.mpr
      ⟨groupKey s, List.mem_dedup.mpr (List.mem_map_of_mem groupKey hs), rfl⟩

/-- The submission list of the C8 witness: one match, one short count at a
TUN rack location, one short count at a bulk location. -/
def subsC8 : List Submission :=
  [{ timestamp := "t1", user := "u", location := "A1", sku := "S", lot := "L",
     expected_qty := "5", counted_qty := "5", issue_type := "Match",
     actual_pallet := "P1", note := "" },
   { timestamp := "t2", user := "u", location := "TUN-04", sku := "S", lot := "L",
     expected_qty := "5", counted_qty := "4", issue_type := "Short",
     actual_pallet := "P2", note := "" },
   { timestamp := "t3", user := "u", location := "A1", sku := "S", lot := "L",
     expected_qty := "5", counted_qty := "3", issue_type := "Short",
     actual_pallet := "P1", note := "" }]

/-- Claim C8 witness: on the concrete list, the match row is excluded from
the non-matches, the TUN-04 short count is a non-match but not a bulk row,
and the bulk-location short count belongs to the group of its key. -/
theorem claim_C8_witness :
    (subsC8.get ⟨0, by decide⟩) ∉ nonMatches subsC8
    ∧ (subsC8.get ⟨1, by decide⟩) ∈ nonMatches subsC8
    ∧ (subsC8.get ⟨1, by decide⟩) ∉ bulkRows subsC8
    ∧ (subsC8.get ⟨2, by decide⟩) ∈ bulkRows subsC8
    ∧ (subsC8.get ⟨2, by decide⟩)
        ∈ groupMembers (bulkRows subsC8) (groupKey (subsC8.get ⟨2, by decide⟩)) := by
  have h := claim_C8_aggregation subsC8
  refine ⟨h.2.2.1 _ rfl, ?_, h.2.2.2.1 _ rfl, ?_, ?_⟩
  · exact (h.1 _).mpr ⟨by decide, by decide, by decide⟩
  · exact (h.2.1 _).mpr ⟨(h.1 _).mpr ⟨by decide, by decide, by decide⟩, by decide⟩
  · exact (h.2.2.2.2.2 _ ((h.2.1 _).mpr
      ⟨(h.1 _).mpr ⟨by decide, by decide, by decide⟩, by decide⟩)).2

/-! ### Claim about the mapping store invariant -/

/-- Claim C9: a mapping persisted through the sidebar save handler always
carries a set `expected_col`: the expected-quantity selectbox offers only
the reference table's column names (no empty option, unlike the optional
columns), so the stored `expected_col` is a column of the table and, since
the loader never produces an empty column label, non-empty. -/
theorem claim_C9_mapping_invariant (cols : List String) (sheet : String)
    (hdr : Nat) (loc pal sku lot exp : String) (store : Option ColumnMapping)
    (hsel : exp ∈ cols) (hcols : "" ∉ cols) :
    (load_mapping (save_mapping (sidebar_mapping sheet hdr loc pal sku lot exp)
        store)).expected_col = some exp
    ∧ exp ∈ cols ∧ exp ≠ "" :=
  ⟨rfl, hsel, fun he => hcols (he ▸ hsel)⟩

/-- Claim C9 witness: saving a mapping whose expected column is the `Qty`
column of a concrete reference table. -/
theorem claim_C9_witness :
    (load_mapping (save_mapping (sidebar_mapping "Sheet1" 0 "Loc" "Pallet" "" ""
        "Qty") none)).expected_col = some "Qty"
    ∧ "Qty" ∈ ["Pallet", "Loc", "Qty"] ∧ "Qty" ≠ "" :=
  claim_C9_mapping_invariant ["Pallet", "Loc", "Qty"] "Sheet1" 0 "Loc" "Pallet"
    "" "" "Qty" none (by decide) (by decide)

end CycleCount
